import Mathlib

/-!
Verification of the solana-server request-validation / instruction-encoding
core.  Rust strings are modelled as `List Char`, byte sequences as `List Nat`
(each element < 256), `u64` values as `Nat`.  Fallible Rust code returning
`Result<_, SolanaError>` is modelled with `Except SolanaError _`.
-/

/-- Little-endian byte encoding with a fixed width: `leBytes k n` is the `k`
low-order bytes of `n`, least significant first. -/
def leBytes : Nat → Nat → List Nat
  | 0, _ => []
  | k + 1, n => n % 256 :: leBytes k (n / 256)

/-- 4-byte little-endian encoding of a `u32` value. -/
def u32LE (n : Nat) : List Nat := leBytes 4 n

/-- 8-byte little-endian encoding of a `u64` value. -/
def u64LE (n : Nat) : List Nat := leBytes 8 n

/-- Minimal big-endian byte representation of a natural number, with an
explicit structural fuel so that the definition computes by reduction.
`natToBytesBEAux n n` is exact because a number `n ≥ 1` has at most `n`
base-256 digits. -/
def natToBytesBEAux : Nat → Nat → List Nat
  | 0, _ => []
  | _, 0 => []
  | fuel + 1, n + 1 => natToBytesBEAux fuel ((n + 1) / 256) ++ [(n + 1) % 256]

/-- Minimal big-endian byte representation of a natural number (empty for 0). -/
def natToBytesBE (n : Nat) : List Nat := natToBytesBEAux n n

/-- The base-58 alphabet used by the `bs58` crate. -/
def b58Alphabet : List Char :=
  "123456789ABCDEFGHJKLMNPQRSTUVWXYZabcdefghijkmnopqrstuvwxyz".toList

/-- Digit value of one character in the base-58 alphabet. -/
def b58Value (c : Char) : Option Nat :=
  b58Alphabet.findIdx? (fun x => x == c)

/-- One step of reading a base-58 string as a big-endian base-58 number;
an invalid character poisons the accumulator. -/
def b58Step (acc : Option Nat) (c : Char) : Option Nat :=
  match acc, b58Value c with
  | some n, some v => some (n * 58 + v)
  | _, _ => none

/-- Reads a whole base-58 string as a number, failing on any character
outside the alphabet (mirrors the `bs58` crate's decode loop). -/
def b58DecodeNat (l : List Char) : Option Nat := l.foldl b58Step (some 0)

/-- Base-58 decode as in the `bs58` crate: the string is one big base-58
number, and each leading `'1'` contributes one leading zero byte. -/
def base58Decode (l : List Char) : Option (List Nat) :=
  match b58DecodeNat l with
  | none => none
  | some n =>
      some (List.replicate ((l.takeWhile (fun c => c == '1')).length) 0
        ++ natToBytesBE n)

/-- Digits of a base-58 number, most significant first (empty for 0),
with structural fuel. -/
def natToB58Aux : Nat → Nat → List Char
  | 0, _ => []
  | _, 0 => []
  | fuel + 1, n + 1 =>
      natToB58Aux fuel ((n + 1) / 58) ++ [b58Alphabet.getD ((n + 1) % 58) '1']

/-- Base-58 encode as in the `bs58` crate: one `'1'` per leading zero byte,
then the base-58 digits of the remaining big-endian number. -/
def base58Encode (bs : List Nat) : List Char :=
  List.replicate ((bs.takeWhile (fun b => b == 0)).length) '1'
    ++ natToB58Aux (8 * bs.length + 1) (bs.foldl (fun acc b => acc * 256 + b) 0)

/-- `Pubkey::from_str` from `solana_sdk`: reject strings longer than 44
characters, base-58 decode, and require exactly 32 decoded bytes. -/
def parsePubkey (l : List Char) : Option (List Nat) :=
  if l.length > 44 then none
  else
    match base58Decode l with
    | none => none
    | some bs => if bs.length = 32 then some bs else none

/-- The base-64 alphabet of the `base64` crate's STANDARD engine. -/
def b64Alphabet : List Char :=
  "ABCDEFGHIJKLMNOPQRSTUVWXYZabcdefghijklmnopqrstuvwxyz0123456789+/".toList

/-- Digit value of one character in the base-64 alphabet. -/
def b64Value (c : Char) : Option Nat :=
  b64Alphabet.findIdx? (fun x => x == c)

/-- Character for one 6-bit value. -/
def b64Char (n : Nat) : Char := b64Alphabet.getD n 'A'

/-- Base-64 decode of the `base64` crate's STANDARD engine: 4-character
groups, canonical `'='` padding only at the end, zero trailing bits. -/
def b64DecodeChunks : List Char → Option (List Nat)
  | [] => some []
  | a :: b :: c :: d :: rest =>
    match b64Value a, b64Value b with
    | some va, some vb =>
      if c = '=' then
        if d = '=' ∧ rest = [] then
          if vb % 16 = 0 then some [va * 4 + vb / 16] else none
        else none
      else
        match b64Value c with
        | some vc =>
          if d = '=' then
            if rest = [] then
              if vc % 4 = 0 then
                some [va * 4 + vb / 16, (vb % 16) * 16 + vc / 4]
              else none
            else none
          else
            match b64Value d with
            | some vd =>
              match b64DecodeChunks rest with
              | some tail =>
                  some ((va * 4 + vb / 16) :: ((vb % 16) * 16 + vc / 4) ::
                    ((vc % 4) * 64 + vd) :: tail)
              | none => none
            | none => none
        | none => none
    | _, _ => none
  | _ => none

/-- Base-64 decode (STANDARD engine with required canonical padding). -/
def base64Decode (l : List Char) : Option (List Nat) := b64DecodeChunks l

/-- Base-64 encode with padding (STANDARD engine). -/
def base64Encode : List Nat → List Char
  | [] => []
  | [x] => [b64Char (x / 4), b64Char ((x % 4) * 16), '=', '=']
  | [x, y] => [b64Char (x / 4), b64Char ((x % 4) * 16 + y / 16),
      b64Char ((y % 16) * 4), '=']
  | x :: y :: z :: rest =>
    b64Char (x / 4) :: b64Char ((x % 4) * 16 + y / 16) ::
      b64Char ((y % 16) * 4 + z / 64) :: b64Char (z % 64) :: base64Encode rest

/-- UTF-8 encoding of one character (`str::as_bytes` in Rust). -/
def utf8EncodeChar (c : Char) : List Nat :=
  let n := c.toNat
  if n < 128 then [n]
  else if n < 2048 then [192 + n / 64, 128 + n % 64]
  else if n < 65536 then
    [224 + n / 4096, 128 + (n / 64) % 64, 128 + n % 64]
  else
    [240 + n / 262144, 128 + (n / 4096) % 64, 128 + (n / 64) % 64, 128 + n % 64]

/-- UTF-8 byte encoding of a string (`str::as_bytes` in Rust). -/
def utf8Encode (l : List Char) : List Nat := l.flatMap utf8EncodeChar

/-- `s.trim().is_empty()` from the Rust validators: true iff the string is
empty or whitespace-only (whitespace per `Char.isWhitespace`). -/
def isBlank (l : List Char) : Bool := (l.dropWhile Char.isWhitespace).isEmpty

/-- The `SolanaError` enum.  The five variants `ClientError`, `SdkError`,
`InvalidInput`, `InsufficientFunds` and `TransactionFailed` are declared in
`src/utils/errors.rs`; `MissingFields` and `TokenError` are the two further
constructors used throughout the handler modules (`send.rs`, `token.rs`,
`message.rs`).  `ClientError` carries the transport error's message. -/
inductive SolanaError where
  | ClientError : String → SolanaError
  | SdkError : String → SolanaError
  | InvalidInput : String → SolanaError
  | InsufficientFunds : SolanaError
  | TransactionFailed : String → SolanaError
  | MissingFields : SolanaError
  | TokenError : String → SolanaError
deriving DecidableEq, Repr

/-- A small JSON value type for stating the shape of response bodies. -/
inductive JsonVal where
  | str : String → JsonVal
  | num : Nat → JsonVal
  | bool : Bool → JsonVal
  | obj : List (String × JsonVal) → JsonVal
deriving Repr

/-- `impl IntoResponse for SolanaError` from `src/utils/errors.rs`: maps an
error to an HTTP status and the JSON body `{"error": <message>, "status":
<code>}`, with the `thiserror` display prefixes.  The match in the source
has arms only for the five variants declared in that file, so the result is
`none` for `MissingFields` and `TokenError`. -/
def intoResponse : SolanaError → Option (Nat × JsonVal)
  | .ClientError s => some (502, JsonVal.obj
      [("error", JsonVal.str ("Client error: " ++ s)), ("status", JsonVal.num 502)])
  | .SdkError s => some (500, JsonVal.obj
      [("error", JsonVal.str ("SDK error: " ++ s)), ("status", JsonVal.num 500)])
  | .InvalidInput s => some (400, JsonVal.obj
      [("error", JsonVal.str ("Invalid input: " ++ s)), ("status", JsonVal.num 400)])
  | .InsufficientFunds => some (400, JsonVal.obj
      [("error", JsonVal.str "Insufficient funds"), ("status", JsonVal.num 400)])
  | .TransactionFailed s => some (400, JsonVal.obj
      [("error", JsonVal.str ("Transaction failed: " ++ s)), ("status", JsonVal.num 400)])
  | .MissingFields => none
  | .TokenError _ => none

/-- `payload.field.as_ref().filter(|s| !s.trim().is_empty())
.ok_or(SolanaError::MissingFields)`: the presence check every handler applies
to a required string field. -/
def reqString (f : Option (List Char)) : Except SolanaError (List Char) :=
  match f with
  | none => .error .MissingFields
  | some s => if isBlank s then .error .MissingFields else .ok s

/-- `payload.amount.filter(|&a| a > 0).ok_or(SolanaError::MissingFields)`:
the presence check for required `u64` amount fields, which folds a zero
value into "missing". -/
def reqAmount (f : Option Nat) : Except SolanaError Nat :=
  match f with
  | none => .error .MissingFields
  | some a => if a > 0 then .ok a else .error .MissingFields

/-- An account reference inside an instruction (`AccountMeta`). -/
structure AccountMeta where
  pubkey : List Nat
  is_signer : Bool
  is_writable : Bool
deriving DecidableEq, Repr

/-- An unsigned instruction: target program, ordered account list, data. -/
structure Instruction where
  program_id : List Nat
  accounts : List AccountMeta
  data : List Nat
deriving DecidableEq, Repr

/-- The native system program id (32 zero bytes, base-58 form
a string of 32 ones). -/
def systemProgramId : List Nat := List.replicate 32 0

/-- The SPL token program id, `spl_token::id()`. -/
def splTokenId : List Nat :=
  (parsePubkey "TokenkegQfeZyiNwAJbNbGKPFXCWuBvf9Ss623VQ5DA".toList).getD []

/-- The rent sysvar id, `sysvar::rent::id()`. -/
def rentSysvarId : List Nat :=
  (parsePubkey "SysvarRent111111111111111111111111111111111".toList).getD []

/-- `solana_sdk::system_instruction::transfer(from, to, lamports)`: the
native transfer instruction.  Data is the bincode encoding of
`SystemInstruction::Transfer { lamports }`: the variant index 2 as a
little-endian `u32`, then the lamports as a little-endian `u64`. -/
def systemTransferIx (fromPk toPk : List Nat) (lamports : Nat) : Instruction :=
  { program_id := systemProgramId
    accounts := [⟨fromPk, true, true⟩, ⟨toPk, false, true⟩]
    data := u32LE 2 ++ u64LE lamports }

/-- `spl_token::instruction::transfer(&spl_token::id(), source, destination,
owner, &[], amount)`: data is tag 3 then the amount little-endian; the owner
is the sole signer because the extra signer list is empty. -/
def splTransferIx (source destination owner : List Nat) (amount : Nat) :
    Instruction :=
  { program_id := splTokenId
    accounts := [⟨source, false, true⟩, ⟨destination, false, true⟩,
      ⟨owner, true, false⟩]
    data := 3 :: u64LE amount }

/-- `spl_token::instruction::initialize_mint(&spl_token::id(), mint,
mint_authority, freeze_authority, decimals)`: data is tag 0, the decimals
byte, the mint-authority bytes, then the freeze authority packed as a
presence byte (1 = present) followed by its bytes. -/
def initializeMintIx (mint mintAuthority : List Nat)
    (freezeAuthority : Option (List Nat)) (decimals : Nat) : Instruction :=
  { program_id := splTokenId
    accounts := [⟨mint, false, true⟩, ⟨rentSysvarId, false, false⟩]
    data := 0 :: decimals :: mintAuthority ++
      (match freezeAuthority with
       | some fz => 1 :: fz
       | none => [0]) }

/-- `spl_token::instruction::mint_to(&spl_token::id(), mint, destination,
authority, &[], amount)`: data is tag 7 then the amount little-endian. -/
def mintToIx (mint destination authority : List Nat) (amount : Nat) :
    Instruction :=
  { program_id := splTokenId
    accounts := [⟨mint, false, true⟩, ⟨destination, false, true⟩,
      ⟨authority, true, false⟩]
    data := 7 :: u64LE amount }

/-- `u64::MAX`. -/
def maxU64 : Nat := 2 ^ 64 - 1

/-- Request body of POST /send/sol (`SendSolRequest`); the Rust field
`from` is a Lean keyword, so it is named `from_` here. -/
structure SendSolRequest where
  from_ : Option (List Char)
  to_ : Option (List Char)
  lamports : Option Nat

/-- Response data of POST /send/sol (`SendSolResponse`): the accounts are
reported as base-58 strings only, without flags. -/
structure SendSolResponse where
  program_id : List Char
  accounts : List (List Char)
  instruction_data : List Char
deriving DecidableEq, Repr

/-- `MIN_LAMPORTS` from `send_sol`. -/
def MIN_LAMPORTS : Nat := 1

/-- `MAX_LAMPORTS` from `send_sol` (100 SOL). -/
def MAX_LAMPORTS : Nat := 100000000000

/-- The `send_sol` handler from `src/modules/send.rs`: presence checks for
`from`, `to`, `lamports` (zero lamports counts as missing), then the
min/max range checks, then pubkey parsing, then the distinctness check,
then the native transfer instruction and its response encoding. -/
def send_sol (req : SendSolRequest) : Except SolanaError SendSolResponse :=
  match reqString req.from_ with
  | .error e => .error e
  | .ok f =>
    match reqString req.to_ with
    | .error e => .error e
    | .ok t =>
      match reqAmount req.lamports with
      | .error e => .error e
      | .ok lamports =>
        if lamports < MIN_LAMPORTS then
          .error (.InvalidInput "Amount must be at least 1 lamport")
        else if lamports > MAX_LAMPORTS then
          .error (.InvalidInput "Amount exceeds maximum limit (100 SOL)")
        else
          match parsePubkey f with
          | none => .error (.InvalidInput "Invalid sender address")
          | some fromPk =>
            match parsePubkey t with
            | none => .error (.InvalidInput "Invalid recipient address")
            | some toPk =>
              if fromPk = toPk then
                .error (.InvalidInput "Sender and recipient cannot be the same")
              else
                let ix := systemTransferIx fromPk toPk lamports
                .ok { program_id := base58Encode ix.program_id
                      accounts := ix.accounts.map (fun a => base58Encode a.pubkey)
                      instruction_data := base64Encode ix.data }

/-- Request body of POST /send/token (`SendTokenRequest`). -/
structure SendTokenRequest where
  destination : Option (List Char)
  mint : Option (List Char)
  owner : Option (List Char)
  amount : Option Nat

/-- One account of the /send/token response (`AccountMetaTokenResponse`):
pubkey and signer flag only. -/
structure AccountMetaTokenResponse where
  pubkey : List Char
  isSigner : Bool
deriving DecidableEq, Repr

/-- Response data of POST /send/token (`SendTokenResponse`). -/
structure SendTokenResponse where
  program_id : List Char
  accounts : List AccountMetaTokenResponse
  instruction_data : List Char
deriving DecidableEq, Repr

/-- The `send_token` handler from `src/modules/send.rs`.  The associated
token address derivation (`get_associated_token_address` of the
`spl_associated_token_account` crate, a SHA-256 based program-derived
address search) is an external pure function and is passed in as the
parameter `ata` (owner wallet, mint ↦ associated address). -/
def send_token (ata : List Nat → List Nat → List Nat)
    (req : SendTokenRequest) : Except SolanaError SendTokenResponse :=
  match reqString req.destination with
  | .error e => .error e
  | .ok d =>
    match reqString req.mint with
    | .error e => .error e
    | .ok m =>
      match reqString req.owner with
      | .error e => .error e
      | .ok o =>
        match reqAmount req.amount with
        | .error e => .error e
        | .ok amount =>
          if amount > maxU64 / 2 then
            .error (.InvalidInput "Token amount is too large")
          else
            match parsePubkey d with
            | none => .error (.InvalidInput "Invalid destination wallet address")
            | some destinationPk =>
              match parsePubkey m with
              | none => .error (.InvalidInput "Invalid mint address")
              | some mintPk =>
                match parsePubkey o with
                | none => .error (.InvalidInput "Invalid owner address")
                | some ownerPk =>
                  if ownerPk = destinationPk then
                    .error (.InvalidInput
                      "Token owner and destination cannot be the same")
                  else
                    let sourceAta := ata ownerPk mintPk
                    let destinationAta := ata destinationPk mintPk
                    let ix := splTransferIx sourceAta destinationAta ownerPk amount
                    .ok { program_id := base58Encode ix.program_id
                          accounts := ix.accounts.map
                            (fun a => ⟨base58Encode a.pubkey, a.is_signer⟩)
                          instruction_data := base64Encode ix.data }

/-- Request body of POST /token/create (`CreateTokenRequest`). -/
structure CreateTokenRequest where
  mint_authority : Option (List Char)
  mint : Option (List Char)
  decimals : Option Nat

/-- One account of the token-instruction responses (`AccountMetaResponse`). -/
structure AccountMetaResponse where
  pubkey : List Char
  is_signer : Bool
  is_writable : Bool
deriving DecidableEq, Repr

/-- Response data of POST /token/create and POST /token/mint
(`InstructionResponse`). -/
structure InstructionResponse where
  program_id : List Char
  accounts : List AccountMetaResponse
  instruction_data : List Char
deriving DecidableEq, Repr

/-- The `create_token` handler from `src/modules/token.rs`: presence checks,
the `decimals > 9` range check, pubkey parsing, the distinctness check, an
informational associated-address derivation whose result is discarded, then
the initialize-mint instruction with the freeze authority set to the mint
authority. -/
def create_token (ata : List Nat → List Nat → List Nat)
    (req : CreateTokenRequest) : Except SolanaError InstructionResponse :=
  match reqString req.mint_authority with
  | .error e => .error e
  | .ok ma =>
    match reqString req.mint with
    | .error e => .error e
    | .ok m =>
      match req.decimals with
      | none => .error .MissingFields
      | some decimals =>
        if decimals > 9 then
          .error (.InvalidInput "Decimals must be between 0 and 9")
        else
          match parsePubkey ma with
          | none => .error (.InvalidInput "Invalid mint authority public key")
          | some mintAuthorityPk =>
            match parsePubkey m with
            | none => .error (.InvalidInput "Invalid mint public key")
            | some mintPk =>
              if mintPk = mintAuthorityPk then
                .error (.InvalidInput
                  "Mint account and mint authority cannot be the same")
              else
                let _authorityAta := ata mintAuthorityPk mintPk
                let ix := initializeMintIx mintPk mintAuthorityPk
                  (some mintAuthorityPk) decimals
                .ok { program_id := base58Encode ix.program_id
                      accounts := ix.accounts.map
                        (fun a => ⟨base58Encode a.pubkey, a.is_signer, a.is_writable⟩)
                      instruction_data := base64Encode ix.data }

/-- Request body of POST /token/mint (`MintTokenRequest`). -/
structure MintTokenRequest where
  mint : Option (List Char)
  destination : Option (List Char)
  authority : Option (List Char)
  amount : Option Nat

/-- The fields of an on-chain account that `mint_token` inspects
(`solana_sdk::account::Account`). -/
structure AccountInfo where
  lamports : Nat
  owner : List Nat
  executable : Bool
deriving DecidableEq, Repr

/-- The external ledger-client capability used by `mint_token`
(`RpcClient::get_account` and `RpcClient::get_token_account_balance`, the
latter returning the balance amount as a string). -/
structure RpcClient where
  getAccount : List Nat → Except String AccountInfo
  getTokenAccountBalance : List Nat → Except String String

/-- The `mint_token` handler from `src/modules/token.rs`: presence checks
(zero amount counts as missing), pubkey parsing, then a hard network check
that the mint account exists and is owned by the SPL token program, two
advisory token-balance lookups whose results are only logged and then
discarded, and finally the mint-to instruction targeting the destination's
associated token address. -/
def mint_token (ata : List Nat → List Nat → List Nat) (client : RpcClient)
    (req : MintTokenRequest) : Except SolanaError InstructionResponse :=
  match reqString req.mint with
  | .error e => .error e
  | .ok m =>
    match reqString req.destination with
    | .error e => .error e
    | .ok d =>
      match reqString req.authority with
      | .error e => .error e
      | .ok a =>
        match reqAmount req.amount with
        | .error e => .error e
        | .ok amount =>
          match parsePubkey m with
          | none => .error (.InvalidInput "Invalid mint address")
          | some mintPk =>
            match parsePubkey d with
            | none => .error (.InvalidInput "Invalid destination wallet address")
            | some destinationWalletPk =>
              match parsePubkey a with
              | none => .error (.InvalidInput "Invalid authority address")
              | some authorityPk =>
                match client.getAccount mintPk with
                | .error _ => .error (.InvalidInput "Mint account does not exist")
                | .ok mintAccount =>
                  if mintAccount.owner ≠ splTokenId then
                    .error (.InvalidInput
                      "Invalid mint account - not owned by SPL Token program")
                  else
                    let authorityAta := ata authorityPk mintPk
                    let destinationAta := ata destinationWalletPk mintPk
                    let _advisory1 := client.getTokenAccountBalance authorityAta
                    let _advisory2 := client.getTokenAccountBalance destinationAta
                    let ix := mintToIx mintPk destinationAta authorityPk amount
                    .ok { program_id := base58Encode ix.program_id
                          accounts := ix.accounts.map
                            (fun a => ⟨base58Encode a.pubkey, a.is_signer, a.is_writable⟩)
                          instruction_data := base64Encode ix.data }

/-- Request body of POST /message/sign (`SignMessageRequest`). -/
structure SignMessageRequest where
  message : Option (List Char)
  secret : Option (List Char)

/-- Response data of POST /message/sign (`SignMessageResponse`). -/
structure SignMessageResponse where
  signature : List Char
  public_key : List Char
  message : List Char
deriving DecidableEq, Repr

/-- The `sign_message` handler from `src/modules/message.rs`.  The ed25519
primitives of `solana_sdk` are external: `kpValid` models whether
`Keypair::from_bytes` accepts the 64 bytes, `kpPubkey` the public half it
exposes, and `signFn` the deterministic `sign_message`. -/
def sign_message (kpValid : List Nat → Bool) (kpPubkey : List Nat → List Nat)
    (signFn : List Nat → List Nat → List Nat) (req : SignMessageRequest) :
    Except SolanaError SignMessageResponse :=
  match reqString req.message with
  | .error e => .error e
  | .ok message =>
    match reqString req.secret with
    | .error e => .error e
    | .ok secret =>
      match base58Decode secret with
      | none => .error (.InvalidInput "Invalid secret key format")
      | some secretBytes =>
        if secretBytes.length ≠ 64 then
          .error (.InvalidInput "Invalid secret key length")
        else if ¬ kpValid secretBytes then
          .error (.InvalidInput "Invalid secret key")
        else
          let sig := signFn secretBytes (utf8Encode message)
          .ok { signature := base64Encode sig
                public_key := base58Encode (kpPubkey secretBytes)
                message := message }

/-- Request body of POST /message/verify (`VerifyMessageRequest`). -/
structure VerifyMessageRequest where
  message : Option (List Char)
  signature : Option (List Char)
  pubkey : Option (List Char)

/-- Response data of POST /message/verify (`VerifyMessageResponse`). -/
structure VerifyMessageResponse where
  valid : Bool
  message : List Char
  pubkey : List Char
deriving DecidableEq, Repr

/-- The `verify_message` handler from `src/modules/message.rs`: presence
checks, pubkey parsing, base-64 signature decoding, the 64-byte length
check (after which `Signature::try_from` cannot fail), then the total
ed25519 verification — passed in as `verifyFn` (signature bytes, public-key
bytes, message bytes) — whose boolean lands in a 200 response. -/
def verify_message (verifyFn : List Nat → List Nat → List Nat → Bool)
    (req : VerifyMessageRequest) : Except SolanaError VerifyMessageResponse :=
  match reqString req.message with
  | .error e => .error e
  | .ok message =>
    match reqString req.signature with
    | .error e => .error e
    | .ok signatureStr =>
      match reqString req.pubkey with
      | .error e => .error e
      | .ok pubkeyStr =>
        match parsePubkey pubkeyStr with
        | none => .error (.InvalidInput "Invalid public key format")
        | some pubkey =>
          match base64Decode signatureStr with
          | none => .error (.InvalidInput "Invalid signature format")
          | some signatureBytes =>
            if signatureBytes.length ≠ 64 then
              .error (.InvalidInput "Invalid signature length")
            else
              let valid := verifyFn signatureBytes pubkey (utf8Encode message)
              .ok { valid := valid
                    message := message
                    pubkey := pubkeyStr }

deriving instance DecidableEq for Except

/-- A required string field counts as missing: absent (or JSON null), or
empty/whitespace-only after trimming. -/
def missingStr (f : Option (List Char)) : Prop :=
  f = none ∨ ∃ s, f = some s ∧ isBlank s = true

lemma reqString_of_missing {f : Option (List Char)} (h : missingStr f) :
    reqString f = .error .MissingFields := by
  rcases h with h | ⟨s, rfl, hb⟩
  · subst h; rfl
  · simp [reqString, hb]

lemma reqString_cases (f : Option (List Char)) :
    reqString f = .error .MissingFields ∨ ∃ s, reqString f = .ok s := by
  rcases f with _ | s
  · exact Or.inl rfl
  · by_cases hb : isBlank s
    · exact Or.inl (by simp [reqString, hb])
    · exact Or.inr ⟨s, by simp [reqString, hb]⟩

lemma reqString_some_ok {s : List Char} (hb : isBlank s = false) :
    reqString (some s) = .ok s := by
  simp [reqString, hb]

lemma reqAmount_cases (f : Option Nat) :
    reqAmount f = .error .MissingFields ∨ ∃ a, reqAmount f = .ok a := by
  rcases f with _ | a
  · exact Or.inl rfl
  · by_cases h : a > 0
    · exact Or.inr ⟨a, by simp [reqAmount, h]⟩
    · exact Or.inl (by simp [reqAmount, h])

lemma reqAmount_some_ok {a : Nat} (h : 0 < a) : reqAmount (some a) = .ok a := by
  simp [reqAmount, h]

lemma reqAmount_ok_inv {f : Option Nat} {a : Nat} (h : reqAmount f = .ok a) :
    f = some a ∧ 0 < a := by
  rcases f with _ | b
  · exact absurd h (by simp [reqAmount])
  · by_cases hb : b > 0
    · simp [reqAmount, hb] at h
      exact ⟨by rw [h], h ▸ hb⟩
    · exact absurd h (by simp [reqAmount, hb])

lemma reqString_ok_inv {f : Option (List Char)} {s : List Char}
    (h : reqString f = .ok s) : f = some s ∧ isBlank s = false := by
  rcases f with _ | t
  · exact absurd h (by simp [reqString])
  · by_cases hb : isBlank t
    · exact absurd h (by simp [reqString, hb])
    · have ht : t = s := by
        simpa [reqString, hb] using h
      subst ht
      exact ⟨rfl, by simpa using hb⟩

lemma b58Value_of_whitespace {c : Char} (h : c.isWhitespace = true) :
    b58Value c = none := by
  have hc : ((c = ' ' ∨ c = '\t') ∨ c = '\r') ∨ c = '\n' := by
    simpa [Char.isWhitespace] using h
  rcases hc with ((rfl | rfl) | rfl) | rfl <;> rfl

lemma foldl_b58Step_none (l : List Char) : l.foldl b58Step none = none := by
  induction l with
  | nil => rfl
  | cons c rest ih =>
      have : b58Step none c = none := rfl
      simp only [List.foldl, this, ih]

lemma b58DecodeNat_head_invalid {c : Char} {rest : List Char}
    (h : b58Value c = none) : b58DecodeNat (c :: rest) = none := by
  have hstep : b58Step (some 0) c = none := by simp [b58Step, h]
  simp only [b58DecodeNat, List.foldl, hstep, foldl_b58Step_none]

lemma isBlank_forall {l : List Char} (h : isBlank l = true) :
    ∀ c ∈ l, c.isWhitespace = true := by
  have hd : l.dropWhile Char.isWhitespace = [] := by
    simpa [isBlank] using h
  exact fun c hc => List.dropWhile_eq_nil_iff.mp hd c hc

lemma parsePubkey_not_blank {l : List Char} {pk : List Nat}
    (h : parsePubkey l = some pk) : isBlank l = false := by
  by_contra hb
  have hb' : isBlank l = true := by
    revert hb; cases isBlank l <;> simp
  rcases l with _ | ⟨c, rest⟩
  · rw [show parsePubkey [] = none from rfl] at h
    exact Option.noConfusion h
  · have hw : c.isWhitespace = true :=
      isBlank_forall hb' c (List.mem_cons_self c rest)
    have hv : b58Value c = none := b58Value_of_whitespace hw
    have hdec : base58Decode (c :: rest) = none := by
      simp [base58Decode, b58DecodeNat_head_invalid hv]
    have hnone : parsePubkey (c :: rest) = none := by
      unfold parsePubkey
      split
      · rfl
      · rw [hdec]
    rw [hnone] at h
    exact Option.noConfusion h

lemma b64Value_of_whitespace {c : Char} (h : c.isWhitespace = true) :
    b64Value c = none := by
  have hc : ((c = ' ' ∨ c = '\t') ∨ c = '\r') ∨ c = '\n' := by
    simpa [Char.isWhitespace] using h
  rcases hc with ((rfl | rfl) | rfl) | rfl <;> rfl

lemma b64DecodeChunks_head_invalid {c : Char} {rest : List Char}
    (h : b64Value c = none) : b64DecodeChunks (c :: rest) = none := by
  match rest with
  | [] => rfl
  | [_] => rfl
  | [_, _] => rfl
  | b :: c2 :: d :: r => simp [b64DecodeChunks, h]

lemma base64Decode_64_not_blank {l : List Char} {bs : List Nat}
    (h : base64Decode l = some bs) (hlen : bs.length = 64) :
    isBlank l = false := by
  by_contra hb
  have hb' : isBlank l = true := by
    revert hb; cases isBlank l <;> simp
  rcases l with _ | ⟨c, rest⟩
  · have : bs = [] := by
      have h0 : base64Decode [] = some [] := rfl
      rw [h0] at h
      exact (Option.some_inj.mp h).symm
    rw [this] at hlen
    exact absurd hlen (by decide)
  · have hw : c.isWhitespace = true :=
      isBlank_forall hb' c (List.mem_cons_self c rest)
    have hv : b64Value c = none := b64Value_of_whitespace hw
    have : base64Decode (c :: rest) = none := b64DecodeChunks_head_invalid hv
    rw [this] at h
    exact Option.noConfusion h

/-- C1: every POST /send/sol request whose `from` and `to` are present and
decode to distinct 32-byte addresses and whose lamports lie in
[1, 100000000000] succeeds, with program_id the native system program
constant, accounts [from, to] in order (signer+writable, writable-only in
the built instruction), and instruction_data the base-64 of the
little-endian (opcode = 2, lamports) encoding. -/
theorem C1_send_sol_success (f t : List Char) (a b : List Nat) (l : Nat)
    (hf : parsePubkey f = some a) (ht : parsePubkey t = some b)
    (hab : a ≠ b) (hlo : 1 ≤ l) (hhi : l ≤ 100000000000) :
    send_sol ⟨some f, some t, some l⟩ =
      .ok { program_id := base58Encode systemProgramId
            accounts := [base58Encode a, base58Encode b]
            instruction_data := base64Encode (u32LE 2 ++ u64LE l) }
    ∧ (systemTransferIx a b l).accounts = [⟨a, true, true⟩, ⟨b, false, true⟩]
    ∧ base58Encode systemProgramId =
        "11111111111111111111111111111111".toList := by
  refine ⟨?_, rfl, by decide⟩
  have hbf : isBlank f = false := parsePubkey_not_blank hf
  have hbt : isBlank t = false := parsePubkey_not_blank ht
  have h1 : ¬ (l < MIN_LAMPORTS) := by simp only [MIN_LAMPORTS]; omega
  have h2 : ¬ (l > MAX_LAMPORTS) := by simp only [MAX_LAMPORTS]; omega
  simp [send_sol, reqString_some_ok hbf, reqString_some_ok hbt,
    reqAmount_some_ok (by omega : 0 < l), h1, h2, hf, ht, hab,
    systemTransferIx]

/-- C1 witness: a concrete /send/sol request satisfying the hypotheses of
`C1_send_sol_success`. -/
theorem C1_witness :
    send_sol ⟨some "11111111111111111111111111111112".toList,
        some "11111111111111111111111111111113".toList, some 1000⟩ =
      .ok { program_id := base58Encode systemProgramId
            accounts := [base58Encode (List.replicate 31 0 ++ [1]),
              base58Encode (List.replicate 31 0 ++ [2])]
            instruction_data := base64Encode (u32LE 2 ++ u64LE 1000) }
    ∧ (systemTransferIx (List.replicate 31 0 ++ [1])
        (List.replicate 31 0 ++ [2]) 1000).accounts =
        [⟨List.replicate 31 0 ++ [1], true, true⟩,
         ⟨List.replicate 31 0 ++ [2], false, true⟩]
    ∧ base58Encode systemProgramId =
        "11111111111111111111111111111111".toList :=
  C1_send_sol_success "11111111111111111111111111111112".toList
    "11111111111111111111111111111113".toList
    (List.replicate 31 0 ++ [1]) (List.replicate 31 0 ++ [2]) 1000
    (by decide) (by decide) (by decide) (by decide) (by decide)

/-- C2 counterexample: a POST /token/mint request with all fields present
and valid does NOT return the mint-to instruction when the external
ledger-client lookups fail — the handler hard-fails with `InvalidInput
"Mint account does not exist"` when `get_account` on the mint errors. -/
theorem C2_counterexample :
    mint_token (fun _ _ => List.replicate 32 9)
      ⟨fun _ => .error "rpc unreachable", fun _ => .error "rpc unreachable"⟩
      ⟨some "11111111111111111111111111111112".toList,
       some "11111111111111111111111111111113".toList,
       some "1111111111111111111111111111111J".toList, some 5⟩ =
      .error (.InvalidInput "Mint account does not exist")
    ∧ ¬ ∃ r, mint_token (fun _ _ => List.replicate 32 9)
      ⟨fun _ => .error "rpc unreachable", fun _ => .error "rpc unreachable"⟩
      ⟨some "11111111111111111111111111111112".toList,
       some "11111111111111111111111111111113".toList,
       some "1111111111111111111111111111111J".toList, some 5⟩ = .ok r := by
  constructor
  · decide
  · rintro ⟨r, hr⟩
    rw [show mint_token (fun _ _ => List.replicate 32 9)
      ⟨fun _ => .error "rpc unreachable", fun _ => .error "rpc unreachable"⟩
      ⟨some "11111111111111111111111111111112".toList,
       some "11111111111111111111111111111113".toList,
       some "1111111111111111111111111111111J".toList, some 5⟩ =
      .error (.InvalidInput "Mint account does not exist") from by decide] at hr
    exact Except.noConfusion hr

/-- C2 amended: only the two token-balance lookups of /token/mint are
advisory — the result never depends on `get_token_account_balance` — while
the `get_account` lookup on the mint is load-bearing: its failure blocks
instruction construction with `InvalidInput "Mint account does not exist"`,
and when it succeeds with an SPL-token-owned account the mint-to
instruction is returned. -/
theorem C2_amended :
    (∀ ata ga bal1 bal2 req,
      mint_token ata ⟨ga, bal1⟩ req = mint_token ata ⟨ga, bal2⟩ req)
    ∧ (∀ ata (client : RpcClient) m d a mp dp ap amt msg,
        parsePubkey m = some mp → parsePubkey d = some dp →
        parsePubkey a = some ap → 0 < amt →
        client.getAccount mp = .error msg →
        mint_token ata client ⟨some m, some d, some a, some amt⟩ =
          .error (.InvalidInput "Mint account does not exist"))
    ∧ (∀ ata (client : RpcClient) m d a mp dp ap amt acct,
        parsePubkey m = some mp → parsePubkey d = some dp →
        parsePubkey a = some ap → 0 < amt →
        client.getAccount mp = .ok acct → acct.owner = splTokenId →
        ∃ r, mint_token ata client ⟨some m, some d, some a, some amt⟩ =
          .ok r) := by
  refine ⟨?_, ?_, ?_⟩
  · intro ata ga bal1 bal2 req
    simp only [mint_token]
  · intro ata client m d a mp dp ap amt msg hm hd ha hamt hga
    simp [mint_token, reqString_some_ok (parsePubkey_not_blank hm),
      reqString_some_ok (parsePubkey_not_blank hd),
      reqString_some_ok (parsePubkey_not_blank ha),
      reqAmount_some_ok hamt, hm, hd, ha, hga]
  · intro ata client m d a mp dp ap amt acct hm hd ha hamt hga howner
    refine ⟨{ program_id := base58Encode splTokenId
              accounts := [⟨base58Encode mp, false, true⟩,
                ⟨base58Encode (ata dp mp), false, true⟩,
                ⟨base58Encode ap, true, false⟩]
              instruction_data := base64Encode (7 :: u64LE amt) }, ?_⟩
    simp [mint_token, reqString_some_ok (parsePubkey_not_blank hm),
      reqString_some_ok (parsePubkey_not_blank hd),
      reqString_some_ok (parsePubkey_not_blank ha),
      reqAmount_some_ok hamt, hm, hd, ha, hga, howner, mintToIx]

/-- C2 witness: `C2_amended` instantiated at a concrete client whose
`get_account` fails. -/
theorem C2_witness :
    mint_token (fun _ _ => List.replicate 32 9)
      ⟨fun _ => .error "down", fun _ => .ok "0"⟩
      ⟨some "11111111111111111111111111111112".toList,
       some "11111111111111111111111111111113".toList,
       some "1111111111111111111111111111111J".toList, some 7⟩ =
      .error (.InvalidInput "Mint account does not exist") :=
  C2_amended.2.1 (fun _ _ => List.replicate 32 9)
    ⟨fun _ => .error "down", fun _ => .ok "0"⟩
    "11111111111111111111111111111112".toList
    "11111111111111111111111111111113".toList
    "1111111111111111111111111111111J".toList
    (List.replicate 31 0 ++ [1]) (List.replicate 31 0 ++ [2])
    (List.replicate 31 0 ++ [17]) 7 "down"
    (by decide) (by decide) (by decide) (by decide) (by decide)

/-- C3: on every endpoint with required fields, a request in which at least
one required field is absent, null, or whitespace-only after trimming (for
strings) yields the single generic `MissingFields` failure, regardless of
the contents of the other fields — never `InvalidInput` and never a
field-specific message. -/
theorem C3_missing_fields :
    (∀ req : SendSolRequest,
      missingStr req.from_ ∨ missingStr req.to_ ∨ req.lamports = none →
      send_sol req = .error .MissingFields)
    ∧ (∀ ata (req : SendTokenRequest),
      missingStr req.destination ∨ missingStr req.mint ∨
        missingStr req.owner ∨ req.amount = none →
      send_token ata req = .error .MissingFields)
    ∧ (∀ ata (req : CreateTokenRequest),
      missingStr req.mint_authority ∨ missingStr req.mint ∨
        req.decimals = none →
      create_token ata req = .error .MissingFields)
    ∧ (∀ ata client (req : MintTokenRequest),
      missingStr req.mint ∨ missingStr req.destination ∨
        missingStr req.authority ∨ req.amount = none →
      mint_token ata client req = .error .MissingFields)
    ∧ (∀ kv kp sf (req : SignMessageRequest),
      missingStr req.message ∨ missingStr req.secret →
      sign_message kv kp sf req = .error .MissingFields)
    ∧ (∀ vf (req : VerifyMessageRequest),
      missingStr req.message ∨ missingStr req.signature ∨
        missingStr req.pubkey →
      verify_message vf req = .error .MissingFields) := by
  refine ⟨?_, ?_, ?_, ?_, ?_, ?_⟩
  · intro req h
    rcases h with h | h | h
    · simp [send_sol, reqString_of_missing h]
    · rcases reqString_cases req.from_ with h1 | ⟨s1, h1⟩ <;>
        simp [send_sol, h1, reqString_of_missing h]
    · rcases reqString_cases req.from_ with h1 | ⟨s1, h1⟩ <;>
        rcases reqString_cases req.to_ with h2 | ⟨s2, h2⟩ <;>
          simp [send_sol, h1, h2, h, reqAmount]
  · intro ata req h
    rcases h with h | h | h | h
    · simp [send_token, reqString_of_missing h]
    · rcases reqString_cases req.destination with h1 | ⟨s1, h1⟩ <;>
        simp [send_token, h1, reqString_of_missing h]
    · rcases reqString_cases req.destination with h1 | ⟨s1, h1⟩ <;>
        rcases reqString_cases req.mint with h2 | ⟨s2, h2⟩ <;>
          simp [send_token, h1, h2, reqString_of_missing h]
    · rcases reqString_cases req.destination with h1 | ⟨s1, h1⟩ <;>
        rcases reqString_cases req.mint with h2 | ⟨s2, h2⟩ <;>
          rcases reqString_cases req.owner with h3 | ⟨s3, h3⟩ <;>
            simp [send_token, h1, h2, h3, h, reqAmount]
  · intro ata req h
    rcases h with h | h | h
    · simp [create_token, reqString_of_missing h]
    · rcases reqString_cases req.mint_authority with h1 | ⟨s1, h1⟩ <;>
        simp [create_token, h1, reqString_of_missing h]
    · rcases reqString_cases req.mint_authority with h1 | ⟨s1, h1⟩ <;>
        rcases reqString_cases req.mint with h2 | ⟨s2, h2⟩ <;>
          simp [create_token, h1, h2, h]
  · intro ata client req h
    rcases h with h | h | h | h
    · simp [mint_token, reqString_of_missing h]
    · rcases reqString_cases req.mint with h1 | ⟨s1, h1⟩ <;>
        simp [mint_token, h1, reqString_of_missing h]
    · rcases reqString_cases req.mint with h1 | ⟨s1, h1⟩ <;>
        rcases reqString_cases req.destination with h2 | ⟨s2, h2⟩ <;>
          simp [mint_token, h1, h2, reqString_of_missing h]
    · rcases reqString_cases req.mint with h1 | ⟨s1, h1⟩ <;>
        rcases reqString_cases req.destination with h2 | ⟨s2, h2⟩ <;>
          rcases reqString_cases req.authority with h3 | ⟨s3, h3⟩ <;>
            simp [mint_token, h1, h2, h3, h, reqAmount]
  · intro kv kp sf req h
    rcases h with h | h
    · simp [sign_message, reqString_of_missing h]
    · rcases reqString_cases req.message with h1 | ⟨s1, h1⟩ <;>
        simp [sign_message, h1, reqString_of_missing h]
  · intro vf req h
    rcases h with h | h | h
    · simp [verify_message, reqString_of_missing h]
    · rcases reqString_cases req.message with h1 | ⟨s1, h1⟩ <;>
        simp [verify_message, h1, reqString_of_missing h]
    · rcases reqString_cases req.message with h1 | ⟨s1, h1⟩ <;>
        rcases reqString_cases req.signature with h2 | ⟨s2, h2⟩ <;>
          simp [verify_message, h1, h2, reqString_of_missing h]

/-- C3 witness: a /send/sol request with a whitespace-only `from` and an
undecodable, over-ceiling remainder still yields `MissingFields`. -/
theorem C3_witness :
    send_sol ⟨some " ".toList, some "notbase58!!".toList,
      some 999999999999999⟩ = .error .MissingFields :=
  C3_missing_fields.1 ⟨some " ".toList, some "notbase58!!".toList,
      some 999999999999999⟩
    (Or.inl (Or.inr ⟨" ".toList, rfl, by decide⟩))

/-- C4 counterexample: a /send/sol request whose `from` is not a decodable
address and whose lamports exceed the ceiling yields the RANGE failure, not
the format-decode failure — the handler checks the lamports bounds before
parsing any address, contrary to the claimed format-then-range order. -/
theorem C4_counterexample :
    send_sol ⟨some "notbase58!!".toList,
        some "11111111111111111111111111111112".toList,
        some 200000000000⟩ =
      .error (.InvalidInput "Amount exceeds maximum limit (100 SOL)")
    ∧ send_sol ⟨some "notbase58!!".toList,
        some "11111111111111111111111111111112".toList,
        some 200000000000⟩ ≠
      .error (.InvalidInput "Invalid sender address")
    ∧ parsePubkey "notbase58!!".toList = none := by
  exact ⟨by decide, by decide, by decide⟩

/-- C4 amended: after the presence checks pass, /send/sol runs its domain
checks in the order range (lamports ceiling) → format decode of `from` →
format decode of `to` → distinct-address check, returning the first
violation; in particular an undecodable `from` combined with an
over-ceiling lamports yields the range failure. -/
theorem C4_amended :
    (∀ f t l, isBlank f = false → isBlank t = false → MAX_LAMPORTS < l →
      send_sol ⟨some f, some t, some l⟩ =
        .error (.InvalidInput "Amount exceeds maximum limit (100 SOL)"))
    ∧ (∀ f t l, isBlank f = false → isBlank t = false → 0 < l →
        l ≤ MAX_LAMPORTS → parsePubkey f = none →
        send_sol ⟨some f, some t, some l⟩ =
          .error (.InvalidInput "Invalid sender address"))
    ∧ (∀ f t l a, isBlank f = false → isBlank t = false → 0 < l →
        l ≤ MAX_LAMPORTS → parsePubkey f = some a → parsePubkey t = none →
        send_sol ⟨some f, some t, some l⟩ =
          .error (.InvalidInput "Invalid recipient address"))
    ∧ (∀ f t l a, isBlank f = false → isBlank t = false → 0 < l →
        l ≤ MAX_LAMPORTS → parsePubkey f = some a → parsePubkey t = some a →
        send_sol ⟨some f, some t, some l⟩ =
          .error (.InvalidInput "Sender and recipient cannot be the same")) := by
  refine ⟨?_, ?_, ?_, ?_⟩
  · intro f t l hbf hbt hl
    have hl' : MAX_LAMPORTS < l := hl
    have h0 : 0 < l := by
      have : (0 : Nat) < MAX_LAMPORTS := by simp only [MAX_LAMPORTS]; omega
      omega
    have h1 : ¬ (l < MIN_LAMPORTS) := by simp only [MIN_LAMPORTS]; omega
    simp [send_sol, reqString_some_ok hbf, reqString_some_ok hbt,
      reqAmount_some_ok h0, h1, hl']
  · intro f t l hbf hbt h0 hle hf
    have h1 : ¬ (l < MIN_LAMPORTS) := by simp only [MIN_LAMPORTS]; omega
    have h2 : ¬ (l > MAX_LAMPORTS) := by omega
    simp [send_sol, reqString_some_ok hbf, reqString_some_ok hbt,
      reqAmount_some_ok h0, h1, h2, hf]
  · intro f t l a hbf hbt h0 hle hf ht
    have h1 : ¬ (l < MIN_LAMPORTS) := by simp only [MIN_LAMPORTS]; omega
    have h2 : ¬ (l > MAX_LAMPORTS) := by omega
    simp [send_sol, reqString_some_ok hbf, reqString_some_ok hbt,
      reqAmount_some_ok h0, h1, h2, hf, ht]
  · intro f t l a hbf hbt h0 hle hf ht
    have h1 : ¬ (l < MIN_LAMPORTS) := by simp only [MIN_LAMPORTS]; omega
    have h2 : ¬ (l > MAX_LAMPORTS) := by omega
    simp [send_sol, reqString_some_ok hbf, reqString_some_ok hbt,
      reqAmount_some_ok h0, h1, h2, hf, ht]

/-- C4 witness: `C4_amended` instantiated at the undecodable-`from`,
over-ceiling input. -/
theorem C4_witness :
    send_sol ⟨some "notbase58!!".toList,
        some "11111111111111111111111111111112".toList,
        some 200000000000⟩ =
      .error (.InvalidInput "Amount exceeds maximum limit (100 SOL)") :=
  C4_amended.1 "notbase58!!".toList
    "11111111111111111111111111111112".toList 200000000000
    (by decide) (by decide) (by decide)

/-- C5: on POST /send/token with all fields present and valid, distinct
addresses, the amount check accepts `u64::MAX / 2` and rejects
`u64::MAX / 2 + 1` with `InvalidInput`; and every accepted amount `a`
satisfies `0 < a ≤ u64::MAX / 2`. -/
theorem C5_send_token_amount :
    (∀ ata (req : SendTokenRequest) r a,
      send_token ata req = .ok r → req.amount = some a →
      0 < a ∧ a ≤ maxU64 / 2)
    ∧ (∀ ata d m o dp mp op,
        parsePubkey d = some dp → parsePubkey m = some mp →
        parsePubkey o = some op → op ≠ dp →
        (∃ r, send_token ata ⟨some d, some m, some o, some (maxU64 / 2)⟩ =
          .ok r)
        ∧ send_token ata ⟨some d, some m, some o, some (maxU64 / 2 + 1)⟩ =
            .error (.InvalidInput "Token amount is too large")) := by
  constructor
  · intro ata req r a hok ha
    simp only [send_token] at hok
    cases h1 : reqString req.destination with
    | error e => simp [h1] at hok
    | ok s1 =>
      simp only [h1] at hok
      cases h2 : reqString req.mint with
      | error e => simp [h2] at hok
      | ok s2 =>
        simp only [h2] at hok
        cases h3 : reqString req.owner with
        | error e => simp [h3] at hok
        | ok s3 =>
          simp only [h3] at hok
          cases h4 : reqAmount req.amount with
          | error e => simp [h4] at hok
          | ok amt =>
            simp only [h4] at hok
            obtain ⟨hsome, hpos⟩ := reqAmount_ok_inv h4
            have hamt : amt = a := by
              rw [ha] at hsome
              exact (Option.some_inj.mp hsome).symm
            subst hamt
            by_cases hrange : amt > maxU64 / 2
            · rw [if_pos hrange] at hok
              exact absurd hok (by simp)
            · exact ⟨hpos, by omega⟩
  · intro ata d m o dp mp op hd hm ho hne
    have hbd : isBlank d = false := parsePubkey_not_blank hd
    have hbm : isBlank m = false := parsePubkey_not_blank hm
    have hbo : isBlank o = false := parsePubkey_not_blank ho
    have hmaxpos : 0 < maxU64 / 2 := by simp only [maxU64]; omega
    constructor
    · refine ⟨{ program_id := base58Encode splTokenId
                accounts := [⟨base58Encode (ata op mp), false⟩,
                  ⟨base58Encode (ata dp mp), false⟩,
                  ⟨base58Encode op, true⟩]
                instruction_data := base64Encode (3 :: u64LE (maxU64 / 2)) },
        ?_⟩
      have hnot : ¬ (maxU64 / 2 > maxU64 / 2) := by omega
      simp [send_token, reqString_some_ok hbd, reqString_some_ok hbm,
        reqString_some_ok hbo, reqAmount_some_ok hmaxpos, hnot,
        hd, hm, ho, hne, splTransferIx]
    · have hover : maxU64 / 2 + 1 > maxU64 / 2 := by omega
      simp [send_token, reqString_some_ok hbd, reqString_some_ok hbm,
        reqString_some_ok hbo, reqAmount_some_ok (by omega : 0 < maxU64 / 2 + 1),
        hover]

/-- C5 witness: `C5_send_token_amount` instantiated at concrete distinct
addresses and the boundary amounts. -/
theorem C5_witness :
    (∃ r, send_token (fun _ _ => List.replicate 32 9)
      ⟨some "11111111111111111111111111111112".toList,
       some "11111111111111111111111111111113".toList,
       some "1111111111111111111111111111111J".toList,
       some (maxU64 / 2)⟩ = .ok r)
    ∧ send_token (fun _ _ => List.replicate 32 9)
      ⟨some "11111111111111111111111111111112".toList,
       some "11111111111111111111111111111113".toList,
       some "1111111111111111111111111111111J".toList,
       some (maxU64 / 2 + 1)⟩ =
        .error (.InvalidInput "Token amount is too large") :=
  C5_send_token_amount.2 (fun _ _ => List.replicate 32 9)
    "11111111111111111111111111111112".toList
    "11111111111111111111111111111113".toList
    "1111111111111111111111111111111J".toList
    (List.replicate 31 0 ++ [1]) (List.replicate 31 0 ++ [2])
    (List.replicate 31 0 ++ [17])
    (by decide) (by decide) (by decide) (by decide)

/-- C6: POST /message/verify is total over well-formed inputs — for every
present non-blank message, public key string decoding to 32 bytes, and
base-64 signature decoding to exactly 64 bytes, the handler returns a
success whose `valid` field is exactly the boolean produced by the ed25519
verification, never an error; in particular a non-verifying signature gives
`valid = false` inside a success response. -/
theorem C6_verify_total (vf : List Nat → List Nat → List Nat → Bool)
    (m s p : List Char) (pk sb : List Nat)
    (hm : isBlank m = false) (hp : parsePubkey p = some pk)
    (hs : base64Decode s = some sb) (hlen : sb.length = 64) :
    verify_message vf ⟨some m, some s, some p⟩ =
      .ok { valid := vf sb pk (utf8Encode m), message := m, pubkey := p } := by
  have hbs : isBlank s = false := base64Decode_64_not_blank hs hlen
  have hbp : isBlank p = false := parsePubkey_not_blank hp
  simp [verify_message, reqString_some_ok hm, reqString_some_ok hbs,
    reqString_some_ok hbp, hp, hs, hlen]

/-- C6 witness: a concrete well-formed request with an all-zero 64-byte
signature and a verifier that rejects it still yields a success with
`valid = false`. -/
theorem C6_witness :
    verify_message (fun _ _ _ => false)
      ⟨some "hello".toList, some (base64Encode (List.replicate 64 0)),
       some "11111111111111111111111111111112".toList⟩ =
      .ok { valid := false, message := "hello".toList,
            pubkey := "11111111111111111111111111111112".toList } :=
  C6_verify_total (fun _ _ _ => false) "hello".toList
    (base64Encode (List.replicate 64 0))
    "11111111111111111111111111111112".toList
    (List.replicate 31 0 ++ [1]) (List.replicate 64 0)
    (by decide) (by decide) (by decide) (by decide)

/-- C7: on POST /token/create with all fields present and valid distinct
addresses, `decimals = 9` is accepted and `decimals = 10` is rejected with
`InvalidInput`; and every accepted decimals value is at most 9. -/
theorem C7_decimals :
    (∀ ata (req : CreateTokenRequest) r d,
      create_token ata req = .ok r → req.decimals = some d → d ≤ 9)
    ∧ (∀ ata ma m ap mp,
        parsePubkey ma = some ap → parsePubkey m = some mp → mp ≠ ap →
        (∃ r, create_token ata ⟨some ma, some m, some 9⟩ = .ok r)
        ∧ create_token ata ⟨some ma, some m, some 10⟩ =
            .error (.InvalidInput "Decimals must be between 0 and 9")) := by
  constructor
  · intro ata req r d hok hd
    simp only [create_token] at hok
    cases h1 : reqString req.mint_authority with
    | error e => simp [h1] at hok
    | ok s1 =>
      simp only [h1] at hok
      cases h2 : reqString req.mint with
      | error e => simp [h2] at hok
      | ok s2 =>
        simp only [h2] at hok
        rw [hd] at hok
        simp only [] at hok
        by_cases hrange : d > 9
        · rw [if_pos hrange] at hok
          exact absurd hok (by simp)
        · omega
  · intro ata ma m ap mp hma hm hne
    have hba : isBlank ma = false := parsePubkey_not_blank hma
    have hbm : isBlank m = false := parsePubkey_not_blank hm
    constructor
    · refine ⟨{ program_id := base58Encode splTokenId
                accounts := [⟨base58Encode mp, false, true⟩,
                  ⟨base58Encode rentSysvarId, false, false⟩]
                instruction_data := base64Encode
                  (0 :: 9 :: ap ++ (1 :: ap)) }, ?_⟩
      simp [create_token, reqString_some_ok hba, reqString_some_ok hbm,
        hma, hm, hne, initializeMintIx]
    · simp [create_token, reqString_some_ok hba, reqString_some_ok hbm]

/-- C7 witness: `C7_decimals` instantiated at concrete distinct valid
addresses, accepting decimals 9 and rejecting decimals 10. -/
theorem C7_witness :
    (∃ r, create_token (fun _ _ => List.replicate 32 9)
      ⟨some "11111111111111111111111111111112".toList,
       some "11111111111111111111111111111113".toList, some 9⟩ = .ok r)
    ∧ create_token (fun _ _ => List.replicate 32 9)
      ⟨some "11111111111111111111111111111112".toList,
       some "11111111111111111111111111111113".toList, some 10⟩ =
        .error (.InvalidInput "Decimals must be between 0 and 9") :=
  C7_decimals.2 (fun _ _ => List.replicate 32 9)
    "11111111111111111111111111111112".toList
    "11111111111111111111111111111113".toList
    (List.replicate 31 0 ++ [1]) (List.replicate 31 0 ++ [2])
    (by decide) (by decide) (by decide)

/-- C8: every successful POST /token/create returns instruction data laid
out as opcode 0, then the decimals byte, then the mint-authority bytes,
then the freeze-authority presence flag 1, then freeze-authority bytes
equal to the mint-authority bytes. -/
theorem C8_initialize_mint_data :
    ∀ ata (req : CreateTokenRequest) r,
      create_token ata req = .ok r →
      ∃ s au d, req.mint_authority = some s ∧ parsePubkey s = some au ∧
        req.decimals = some d ∧
        r.instruction_data = base64Encode ([0] ++ [d] ++ au ++ [1] ++ au) := by
  intro ata req r hok
  simp only [create_token] at hok
  cases h1 : reqString req.mint_authority with
  | error e => simp [h1] at hok
  | ok s1 =>
    simp only [h1] at hok
    cases h2 : reqString req.mint with
    | error e => simp [h2] at hok
    | ok s2 =>
      simp only [h2] at hok
      cases h3 : req.decimals with
      | none => simp [h3] at hok
      | some d =>
        simp only [h3] at hok
        by_cases h4 : d > 9
        · rw [if_pos h4] at hok
          exact absurd hok (by simp)
        · rw [if_neg h4] at hok
          cases h5 : parsePubkey s1 with
          | none => simp [h5] at hok
          | some au =>
            simp only [h5] at hok
            cases h6 : parsePubkey s2 with
            | none => simp [h6] at hok
            | some mp =>
              simp only [h6] at hok
              by_cases h7 : mp = au
              · rw [if_pos h7] at hok
                exact absurd hok (by simp)
              · rw [if_neg h7] at hok
                have hs1 : req.mint_authority = some s1 :=
                  (reqString_ok_inv h1).1
                refine ⟨s1, au, d, hs1, h5, rfl, ?_⟩
                have hr := (Except.ok.injEq _ _).mp hok
                rw [← hr]
                simp [initializeMintIx]

/-- C8 witness: `C8_initialize_mint_data` applied to a concrete successful
/token/create request. -/
theorem C8_witness :
    ∃ s au d,
      (CreateTokenRequest.mk (some "11111111111111111111111111111112".toList)
          (some "11111111111111111111111111111113".toList) (some 9)).mint_authority
        = some s ∧
      parsePubkey s = some au ∧
      (CreateTokenRequest.mk (some "11111111111111111111111111111112".toList)
          (some "11111111111111111111111111111113".toList) (some 9)).decimals
        = some d ∧
      ({ program_id := base58Encode splTokenId
         accounts := [⟨base58Encode (List.replicate 31 0 ++ [2]), false, true⟩,
           ⟨base58Encode rentSysvarId, false, false⟩]
         instruction_data := base64Encode
           (0 :: 9 :: (List.replicate 31 0 ++ [1]) ++
             (1 :: (List.replicate 31 0 ++ [1]))) } :
         InstructionResponse).instruction_data =
        base64Encode ([0] ++ [d] ++ au ++ [1] ++ au) :=
  C8_initialize_mint_data (fun _ _ => List.replicate 32 9)
    ⟨some "11111111111111111111111111111112".toList,
     some "11111111111111111111111111111113".toList, some 9⟩
    { program_id := base58Encode splTokenId
      accounts := [⟨base58Encode (List.replicate 31 0 ++ [2]), false, true⟩,
        ⟨base58Encode rentSysvarId, false, false⟩]
      instruction_data := base64Encode
        (0 :: 9 :: (List.replicate 31 0 ++ [1]) ++
          (1 :: (List.replicate 31 0 ++ [1]))) }
    (by decide)

/-- C9 counterexample: the failure body produced by the error-to-response
mapping for an `InvalidInput` failure is `{"error": <message>, "status":
<code>}`, not the claimed `{"success": false, "error": <message>}`
envelope, whatever message the claimed envelope would carry. -/
theorem C9_counterexample :
    intoResponse (.InvalidInput "boom") =
      some (400, JsonVal.obj [("error", JsonVal.str "Invalid input: boom"),
        ("status", JsonVal.num 400)])
    ∧ ∀ msg, intoResponse (.InvalidInput "boom") ≠
      some (400, JsonVal.obj [("success", JsonVal.bool false),
        ("error", JsonVal.str msg)]) := by
  constructor
  · rfl
  · intro msg h
    simp [intoResponse] at h

/-- C9 amended: the error-to-response mapping in `errors.rs` sends
`InvalidInput`, `InsufficientFunds` and `TransactionFailed` to HTTP 400,
`ClientError` to 502 and `SdkError` to 500, with body `{"error":
<message>, "status": <code>}`; `MissingFields` and `TokenError` are not
variants of the enum declared in that file, so the mapping has no arm for
them. -/
theorem C9_amended : ∀ s t : String,
    intoResponse (.InvalidInput s) = some (400, JsonVal.obj
      [("error", JsonVal.str ("Invalid input: " ++ s)),
       ("status", JsonVal.num 400)])
    ∧ intoResponse .InsufficientFunds = some (400, JsonVal.obj
      [("error", JsonVal.str "Insufficient funds"), ("status", JsonVal.num 400)])
    ∧ intoResponse (.TransactionFailed s) = some (400, JsonVal.obj
      [("error", JsonVal.str ("Transaction failed: " ++ s)),
       ("status", JsonVal.num 400)])
    ∧ intoResponse (.ClientError s) = some (502, JsonVal.obj
      [("error", JsonVal.str ("Client error: " ++ s)),
       ("status", JsonVal.num 502)])
    ∧ intoResponse (.SdkError s) = some (500, JsonVal.obj
      [("error", JsonVal.str ("SDK error: " ++ s)), ("status", JsonVal.num 500)])
    ∧ intoResponse .MissingFields = none
    ∧ intoResponse (.TokenError t) = none := by
  intro s t
  exact ⟨rfl, rfl, rfl, rfl, rfl, rfl, rfl⟩

/-- C9 witness: `C9_amended` instantiated at a concrete message. -/
theorem C9_witness :
    intoResponse (.InvalidInput "x") = some (400, JsonVal.obj
      [("error", JsonVal.str ("Invalid input: " ++ "x")),
       ("status", JsonVal.num 400)]) :=
  (C9_amended "x" "x").1

/-- C10: on /send/sol, /send/token and /token/mint, a present-but-zero
amount field is folded into the presence check: the request fails with the
same `MissingFields` error as when the field is absent, never with a range
`InvalidInput` and never reaching address decoding. -/
theorem C10_zero_amount :
    (∀ f t, send_sol ⟨f, t, some 0⟩ = .error .MissingFields ∧
      send_sol ⟨f, t, some 0⟩ = send_sol ⟨f, t, none⟩)
    ∧ (∀ ata d m o, send_token ata ⟨d, m, o, some 0⟩ = .error .MissingFields ∧
      send_token ata ⟨d, m, o, some 0⟩ = send_token ata ⟨d, m, o, none⟩)
    ∧ (∀ ata client m d a,
      mint_token ata client ⟨m, d, a, some 0⟩ = .error .MissingFields ∧
      mint_token ata client ⟨m, d, a, some 0⟩ =
        mint_token ata client ⟨m, d, a, none⟩) := by
  refine ⟨?_, ?_, ?_⟩
  · intro f t
    rcases reqString_cases f with h1 | ⟨s1, h1⟩ <;>
      rcases reqString_cases t with h2 | ⟨s2, h2⟩ <;>
        constructor <;> simp [send_sol, h1, h2, reqAmount]
  · intro ata d m o
    rcases reqString_cases d with h1 | ⟨s1, h1⟩ <;>
      rcases reqString_cases m with h2 | ⟨s2, h2⟩ <;>
        rcases reqString_cases o with h3 | ⟨s3, h3⟩ <;>
          constructor <;> simp [send_token, h1, h2, h3, reqAmount]
  · intro ata client m d a
    rcases reqString_cases m with h1 | ⟨s1, h1⟩ <;>
      rcases reqString_cases d with h2 | ⟨s2, h2⟩ <;>
        rcases reqString_cases a with h3 | ⟨s3, h3⟩ <;>
          constructor <;> simp [mint_token, h1, h2, h3, reqAmount]

/-- C10 witness: `C10_zero_amount` instantiated at a /send/sol request with
valid addresses and zero lamports. -/
theorem C10_witness :
    send_sol ⟨some "11111111111111111111111111111112".toList,
      some "11111111111111111111111111111113".toList, some 0⟩ =
      .error .MissingFields ∧
    send_sol ⟨some "11111111111111111111111111111112".toList,
      some "11111111111111111111111111111113".toList, some 0⟩ =
    send_sol ⟨some "11111111111111111111111111111112".toList,
      some "11111111111111111111111111111113".toList, none⟩ :=
  C10_zero_amount.1 (some "11111111111111111111111111111112".toList)
    (some "11111111111111111111111111111113".toList)
